import Mathlib

/-!
Verification development for the carbozulia-streaming-avatar-react client.

This file gives a shallow embedding of the message-handling core of the
repository and proves properties of it:

* `src/hooks/useMessageState.ts` — chat message list state: `addReceivedMessage`
  (chunk accumulation and system-message append), `cleanupOldSystemMessages`
  (bounded system-message history), `sendMessage` (optimistic append with
  rollback on transport failure).
* `src/components/ChatInterface/index.tsx` — `handleStreamMessage`: the
  decode/dispatch boundary for inbound data-channel frames (versioned JSON
  envelopes of type chat / event / command), wrapped in a try/catch so that
  malformed frames are logged and discarded.
* `src/hooks/useStreaming.ts` — the session orchestrator: `startStreaming`,
  `joinChannel` / `leaveChannel`, `joinChat` / `leaveChat`, `closeStreaming`,
  `onTokenDidExpire`, and the request/metadata builders
  (`buildAvatarMetadata`, the `createSession` request spread).

Stateful hook code is embedded as explicit state passing; external
collaborators (the JSON parser, the HTTP API, the RTC transport) appear as
parameters or as entries of an effect trace.  JavaScript `Date.now()` is an
explicit `now : Nat` parameter.
-/

/-- Model of a JavaScript JSON value (the result of `JSON.parse`). Numbers are
modelled as integers; the claims under study never depend on fractional
numeric payloads. -/
inductive Json where
  | null
  | bool (b : Bool)
  | num (n : Int)
  | str (s : String)
  | arr (xs : List Json)
  | obj (kvs : List (String × Json))

/-- Property lookup on a parsed value, as JavaScript destructuring reads a
field: an object yields the field value (or `undefined` = `none` when the key
is missing); any non-object primitive yields `undefined`.  Destructuring
`null` itself throws; that case is handled separately at the use sites. -/
def jsonGet (j : Json) (key : String) : Option Json :=
  match j with
  | Json.obj kvs => kvs.lookup key
  | _ => none

/-- JavaScript truthiness, `Boolean(v)`: `null`, `false`, `0` and the empty
string are falsy; every other value (including any object or array) is
truthy. -/
def jsTruthy : Json → Bool
  | Json.null => false
  | Json.bool b => b
  | Json.num n => !(n == 0)
  | Json.str s => !(s == "")
  | Json.arr _ => true
  | Json.obj _ => true

/-- Truthiness of a possibly-undefined value: `undefined` is falsy. -/
def jsTruthyOpt : Option Json → Bool
  | none => false
  | some j => jsTruthy j

/-- Tests whether a (possibly undefined) field value is the number 2, i.e.
the negation of the check `v !== 2` in the handlers. -/
def isNumTwo : Option Json → Bool
  | some (Json.num n) => n == 2
  | _ => false

/-- Tests whether a (possibly undefined) field value is a given string, i.e.
a `x === "lit"` comparison in the handlers. -/
def isStrEq (v : Option Json) (lit : String) : Bool :=
  match v with
  | some (Json.str s) => s == lit
  | _ => false

/-- Tests whether a (possibly undefined) field value is a given number, i.e.
a `code === 1000` comparison. -/
def isNumEq (v : Option Json) (lit : Int) : Bool :=
  match v with
  | some (Json.num n) => n == lit
  | _ => false

/-- String conversion of a value as a JavaScript template literal performs it
(`String(v)`).  Arrays display as their comma-joined elements, objects as
`[object Object]`. -/
def jsDisplay : Json → String
  | Json.null => "null"
  | Json.bool b => cond b "true" "false"
  | Json.num n => toString n
  | Json.str s => s
  | Json.arr xs => String.intercalate "," (xs.attach.map (fun x => jsDisplay x.1))
  | Json.obj _ => "[object Object]"
decreasing_by
  have := List.sizeOf_lt_of_mem x.2
  simp only [Json.arr.sizeOf_spec]
  omega

/-- Template-literal display of a possibly-undefined value: `String(undefined)`
is the string `undefined`. -/
def jsDisplayOpt : Option Json → String
  | none => "undefined"
  | some j => jsDisplay j

/-- Minimal escaping used by `JSON.stringify` for the string contents the
claims exercise (quote and backslash). -/
def jsonEscape (s : String) : String :=
  String.join (s.data.map (fun c =>
    if c == '"' then "\\\"" else if c == '\\' then "\\\\" else String.singleton c))

/-- Model of `JSON.stringify` on parsed values (no spacing, keys in insertion
order, as V8 prints plain objects). -/
def jsonStringify : Json → String
  | Json.null => "null"
  | Json.bool b => cond b "true" "false"
  | Json.num n => toString n
  | Json.str s => "\"" ++ jsonEscape s ++ "\""
  | Json.arr xs => "[" ++ String.intercalate "," (xs.attach.map (fun x => jsonStringify x.1)) ++ "]"
  | Json.obj kvs => "\x7b" ++
      String.intercalate "," (kvs.attach.map (fun kv =>
        "\"" ++ jsonEscape kv.1.1 ++ "\":" ++ jsonStringify kv.1.2)) ++ "\x7d"
decreasing_by
  · have := List.sizeOf_lt_of_mem x.2
    simp only [Json.arr.sizeOf_spec]
    omega
  · have h1 := List.sizeOf_lt_of_mem kv.2
    obtain ⟨⟨k, v⟩, hm⟩ := kv
    simp only [Prod.mk.sizeOf_spec] at h1
    simp only [Json.obj.sizeOf_spec]
    omega

/-- The `SystemEventType` enum of `useMessageState.ts`. -/
inductive SystemEventType where
  | avatarAudioStart
  | avatarAudioEnd
  | micStart
  | micEnd
  | cameraStart
  | cameraEnd
  | setParams
  | setParamsAck
  | interrupt
  | interruptAck
deriving DecidableEq, Repr

/-- The `Message` interface of `useMessageState.ts` (timestamped variant):
id, text, sender flag, optional system-message marker and type, timestamp,
optional metadata. -/
structure Message where
  id : String
  text : String
  isSentByMe : Bool
  isSystemMessage : Bool := false
  systemType : Option SystemEventType := none
  timestamp : Nat
  metadata : Option Json := none

/-- The body of the `setMessages` updater inside `addReceivedMessage` of
`useMessageState.ts`: a system message is always appended as a fresh entry
whose id is suffixed with the current time; a regular (chat) message either
extends the text of the existing entry with the same id (metadata replaced by
the incoming one) or is appended as a new entry. -/
def addReceivedMessage (now : Nat) (messageId text : String)
    (isSystemMessage : Bool) (systemType : Option SystemEventType)
    (metadata : Option Json) (prev : List Message) : List Message :=
  if isSystemMessage then
    prev ++ [{ id := messageId ++ "_" ++ toString now, text := text,
               isSentByMe := false, isSystemMessage := true,
               systemType := systemType, timestamp := now, metadata := metadata }]
  else
    match prev.findIdx? (fun m => m.id == messageId) with
    | some i =>
      match prev[i]? with
      | some old =>
        prev.set i { old with text := old.text ++ text, metadata := metadata }
      | none => prev
    | none =>
      prev ++ [{ id := messageId, text := text, isSentByMe := false,
                 isSystemMessage := false, systemType := systemType,
                 timestamp := now, metadata := metadata }]

/-- Index of the first message with the given id, `-1` when absent
(JavaScript `Array.prototype.findIndex`). -/
def jsFindIndexId (prev : List Message) (id : String) : Int :=
  match prev.findIdx? (fun m => m.id == id) with
  | some i => (i : Int)
  | none => -1

/-- The `setMessages` updater of `cleanupOldSystemMessages`: keep every
regular message and the last 10 system messages, then sort the survivors by
their index in the original array. -/
def cleanupOldSystemMessages (prev : List Message) : List Message :=
  let systemMessages := prev.filter (fun m => m.isSystemMessage)
  let regularMessages := prev.filter (fun m => !m.isSystemMessage)
  let recentSystemMessages := systemMessages.drop (systemMessages.length - 10)
  (regularMessages ++ recentSystemMessages).mergeSort
    (fun a b => jsFindIndexId prev a.id ≤ jsFindIndexId prev b.id)

/-- Number of system messages currently in the list. -/
def systemCount (l : List Message) : Nat :=
  (l.filter (fun m => m.isSystemMessage)).length

/-- The auto-cleanup effect of `useMessageState.ts`: whenever the committed
message list holds more than 15 system messages, `cleanupOldSystemMessages`
runs. -/
def autoCleanup (l : List Message) : List Message :=
  if 15 < systemCount l then cleanupOldSystemMessages l else l

/-- JavaScript `String.prototype.trim`: strip leading and trailing
whitespace. -/
def jsTrim (s : String) : String :=
  String.mk (((s.data.dropWhile Char.isWhitespace).reverse.dropWhile
    Char.isWhitespace).reverse)

/-- Local UI state touched by `sendMessage`. -/
structure SendState where
  messages : List Message
  inputMessage : String
  sending : Bool

/-- The `sendMessage` callback of `useMessageState.ts`, run to completion:
guard (empty trimmed input, not connected, or a send already in flight is a
no-op), optimistic append of the message keyed by `Date.now()`, transport
send, rollback filter on failure, `sending` reset by the `finally` block.
The transport outcome is the explicit `transportOk` parameter. -/
def sendMessage (connected : Bool) (now : Nat) (transportOk : Bool)
    (st : SendState) : SendState :=
  if jsTrim st.inputMessage == "" || !connected || st.sending then st
  else
    let messageId := toString now
    let newMessage : Message :=
      { id := messageId, text := st.inputMessage, isSentByMe := true, timestamp := now }
    let afterAdd := st.messages ++ [newMessage]
    if transportOk then
      { messages := afterAdd, inputMessage := "", sending := false }
    else
      { messages := afterAdd.filter (fun m => !(m.id == messageId)),
        inputMessage := "", sending := false }

/-- State touched by the `ChatInterface` stream-message handler: the message
list (via `addReceivedMessage`) and the avatar-speaking flag (via
`setIsAvatarSpeaking` from the Agora context). -/
structure ChatState where
  messages : List Message
  isAvatarSpeaking : Bool

/-- The dispatch body of `handleStreamMessage` in
`src/components/ChatInterface/index.tsx`, run on an already parsed frame.
It mirrors the source line by line:

* destructuring `const (v, type, mid, pld) = JSON.parse(msg)` throws a
  `TypeError` when the parsed value is `null` (modelled as `Except.error`);
* `if (v !== 2) return` — any other version is a silent no-op;
* `chat` frames call `addReceivedMessage(type + "_" + mid, text)`;
* `event` frames flip the avatar-speaking flag on `audio_start` / `audio_end`
  and append a system message for each event;
* `command` frames with a `code` field append a command-acknowledgment system
  message, others append a command-sent system message;
* destructuring the payload (`const ... = pld`) throws when `pld` is missing
  or `null`.

Errors are caught one level up by `handleStreamMessage`.  Payload text values
are converted with the JavaScript string coercion `jsDisplayOpt`, which agrees
with the source for string and undefined payloads. -/
def processEnvelope (now : Nat) (j : Json) (st : ChatState) : Except String ChatState :=
  match j with
  | Json.null => Except.error "TypeError: cannot destructure null"
  | _ =>
    let v := jsonGet j "v"
    let type := jsonGet j "type"
    let mid := jsonGet j "mid"
    let pld := jsonGet j "pld"
    if !(isNumTwo v) then
      Except.ok st
    else if isStrEq type "chat" then
      match pld with
      | none => Except.error "TypeError: cannot destructure undefined"
      | some Json.null => Except.error "TypeError: cannot destructure null"
      | some p =>
        let text := jsDisplayOpt (jsonGet p "text")
        Except.ok { st with messages :=
          addReceivedMessage now ("chat_" ++ jsDisplayOpt mid) text false none none st.messages }
    else if isStrEq type "event" then
      match pld with
      | none => Except.error "TypeError: cannot destructure undefined"
      | some Json.null => Except.error "TypeError: cannot destructure null"
      | some p =>
        let event := jsonGet p "event"
        if isStrEq event "audio_start" then
          let newMessages :=
            addReceivedMessage now ("event_" ++ jsDisplayOpt mid)
              "🎤 Avatar started speaking" true (some SystemEventType.avatarAudioStart)
              none st.messages
          Except.ok { messages := newMessages, isAvatarSpeaking := true }
        else if isStrEq event "audio_end" then
          let newMessages :=
            addReceivedMessage now ("event_" ++ jsDisplayOpt mid)
              "✅ Avatar finished speaking" true (some SystemEventType.avatarAudioEnd)
              none st.messages
          Except.ok { messages := newMessages, isAvatarSpeaking := false }
        else
          let newMessages :=
            addReceivedMessage now ("event_" ++ jsDisplayOpt mid)
              ("📋 Event: " ++ jsDisplayOpt event) true none none st.messages
          Except.ok { st with messages := newMessages }
    else if isStrEq type "command" then
      match pld with
      | none => Except.error "TypeError: cannot destructure undefined"
      | some Json.null => Except.error "TypeError: cannot destructure null"
      | some p =>
        let cmd := jsonGet p "cmd"
        let code := jsonGet p "code"
        let msg := jsonGet p "msg"
        match code with
        | some c =>
          let status := if isNumEq (some c) 1000 then "✅" else "❌"
          let statusText := if isNumEq (some c) 1000 then "Success" else "Failed"
          let systemType := if isStrEq cmd "interrupt" then SystemEventType.interruptAck
                            else SystemEventType.setParamsAck
          let newMessages :=
            addReceivedMessage now ("cmd_ack_" ++ jsDisplayOpt mid)
              (status ++ " " ++ jsDisplayOpt cmd ++ ": " ++ statusText ++
                (if jsTruthyOpt msg then " (" ++ jsDisplayOpt msg ++ ")" else ""))
              true (some systemType) none st.messages
          Except.ok { st with messages := newMessages }
        | none =>
          let data := jsonGet p "data"
          let dataStr := if jsTruthyOpt data
                         then " with data: " ++ (match data with
                                                 | some d => jsonStringify d
                                                 | none => "undefined")
                         else ""
          let systemType := if isStrEq cmd "interrupt" then SystemEventType.interrupt
                            else SystemEventType.setParams
          let newMessages :=
            addReceivedMessage now ("cmd_send_" ++ jsDisplayOpt mid)
              ("📤 " ++ jsDisplayOpt cmd ++ dataStr) true (some systemType) none st.messages
          Except.ok { st with messages := newMessages }
    else
      Except.ok st

/-- One decoded frame through the try/catch of `handleStreamMessage`: a thrown
error is logged (`console.error`) and the state is left unchanged. -/
def stepDecoded (now : Nat) (j : Json) (st : ChatState) : ChatState :=
  match processEnvelope now j st with
  | Except.ok st1 => st1
  | Except.error _ => st

/-- The full `handleStreamMessage` boundary of
`src/components/ChatInterface/index.tsx` on one inbound frame.  The byte
decode plus `JSON.parse` step is the external collaborator `parse`, which may
throw (`Except.error`); the try block wraps both the parse and the dispatch,
so every failure path returns the incoming state unchanged. -/
def handleStreamMessage (now : Nat) (parse : List Nat → Except String Json)
    (body : List Nat) (st : ChatState) : ChatState :=
  match parse body with
  | Except.error _ => st
  | Except.ok j => stepDecoded now j st

/-- A sequence of inbound frames fed through the handler in arrival order. -/
def processBodies (now : Nat) (parse : List Nat → Except String Json)
    (bodies : List (List Nat)) (st : ChatState) : ChatState :=
  bodies.foldl (fun s b => handleStreamMessage now parse b s) st

/-- A well-formed version-2 chat chunk envelope as the sender emits it:
`(v, type, mid, idx, fin, pld)` with a text payload. -/
def chatEnv (mid : String) (idx : Nat) (fin : Bool) (text : String) : Json :=
  Json.obj [("v", Json.num 2), ("type", Json.str "chat"), ("mid", Json.str mid),
            ("idx", Json.num idx), ("fin", Json.bool fin),
            ("pld", Json.obj [("text", Json.str text)])]

/-- A sequence of decoded chat chunk envelopes for one `mid`, fed through the
handler in arrival order; each list entry carries its `chunkIndex`, `isFinal`
flag and text. -/
def processChatChunks (now : Nat) (mid : String) (chunks : List (Nat × Bool × String))
    (st : ChatState) : ChatState :=
  chunks.foldl (fun s c => stepDecoded now (chatEnv mid c.1 c.2.1 c.2.2) s) st

/-- A version-2 command-acknowledgment envelope (a `command` frame whose
payload carries a `code` field). -/
def cmdAckEnv (mid cmd : String) (code : Int) (msg : Option Json) : Json :=
  Json.obj [("v", Json.num 2), ("type", Json.str "command"), ("mid", Json.str mid),
            ("pld", Json.obj ([("cmd", Json.str cmd), ("code", Json.num code)] ++
              (match msg with
               | some m => [("msg", m)]
               | none => [])))]

/-- Concatenation of a list of text chunks, left to right. -/
def concatTexts : List String → String
  | [] => ""
  | c :: rest => c ++ concatTexts rest

/-- The `AvatarConfig` record of `useStreaming.ts`: the inputs of
`buildAvatarMetadata`.  `voiceParams` is a `Record<string, unknown>`,
modelled as a key/value list. -/
structure AvatarConfig where
  voiceId : String
  voiceUrl : String
  language : String
  modeType : Int
  backgroundUrl : String
  voiceParams : List (String × Json)

/-- The `serializeVoiceParams` helper: stringify the voice-parameter object
when it has at least one key, otherwise `undefined`. -/
def serializeVoiceParams (params : List (String × Json)) : Option String :=
  if params.length > 0 then some (jsonStringify (Json.obj params)) else none

/-- The entry filter of `buildAvatarMetadata`
(`Object.entries(metadata).filter(([_, value]) => Boolean(value))`): an entry
survives exactly when its value is present and truthy. -/
def metaKeep (kv : String × Option Json) : Option (String × Json) :=
  match kv.2 with
  | some v => if jsTruthy v then some (kv.1, v) else none
  | none => none

/-- The `buildAvatarMetadata` helper of `useStreaming.ts`: assemble the
`vid/vurl/lang/mode/bgurl/vparams` object, then drop every entry whose value
is falsy (`Object.entries(...).filter(Boolean)`), `undefined` included. -/
def buildAvatarMetadata (config : AvatarConfig) : List (String × Json) :=
  [("vid", some (Json.str config.voiceId)),
   ("vurl", some (Json.str config.voiceUrl)),
   ("lang", some (Json.str config.language)),
   ("mode", some (Json.num config.modeType)),
   ("bgurl", some (Json.str config.backgroundUrl)),
   ("vparams", (serializeVoiceParams config.voiceParams).map Json.str)].filterMap metaKeep

/-- The configuration arguments of the `useStreaming` hook that feed
`startStreaming` and `updateAvatarParams`. -/
structure StreamConfig where
  avatarId : String
  knowledgeId : String
  sessionDuration : Nat
  voiceId : String
  voiceUrl : String
  backgroundUrl : String
  language : String
  modeType : Int
  voiceParams : List (String × Json)

/-- Projection of the hook parameters onto the `AvatarConfig` record passed by
`updateAvatarParams` to `buildAvatarMetadata`. -/
def avatarCfgOf (c : StreamConfig) : AvatarConfig :=
  { voiceId := c.voiceId, voiceUrl := c.voiceUrl, language := c.language,
    modeType := c.modeType, backgroundUrl := c.backgroundUrl,
    voiceParams := c.voiceParams }

/-- The body of the `api.createSession` request built in `startStreaming`:
`avatar_id` and `duration` always present, every other field spread in only
when its configuration value is truthy (non-empty string, non-zero number,
non-empty params object). -/
structure SessionRequest where
  avatar_id : String
  duration : Nat
  knowledge_id : Option String
  voice_id : Option String
  voice_url : Option String
  language : Option String
  mode_type : Option Int
  background_url : Option String
  voice_params : Option (List (String × Json))

/-- The conditional-spread construction of the `createSession` request in
`startStreaming` (`useStreaming.ts`). -/
def buildSessionRequest (c : StreamConfig) : SessionRequest :=
  { avatar_id := c.avatarId,
    duration := c.sessionDuration * 60,
    knowledge_id := if c.knowledgeId == "" then none else some c.knowledgeId,
    voice_id := if c.voiceId == "" then none else some c.voiceId,
    voice_url := if c.voiceUrl == "" then none else some c.voiceUrl,
    language := if c.language == "" then none else some c.language,
    mode_type := if c.modeType == 0 then none else some c.modeType,
    background_url := if c.backgroundUrl == "" then none else some c.backgroundUrl,
    voice_params := if c.voiceParams.length > 0 then some c.voiceParams else none }

/-- Agora credentials as returned by the session API. -/
structure Credentials where
  agora_app_id : String
  agora_channel : String
  agora_token : String
  agora_uid : Nat
deriving DecidableEq, Repr

/-- The session record returned by `api.createSession` (`_id` plus the
credential block; `stream_urls` is the legacy fallback used when
`credentials` is absent). -/
structure SessionData where
  sid : String
  credentials : Option Credentials
  stream_urls : Credentials
deriving DecidableEq, Repr

/-- Observable actions of the orchestrator on its external collaborators: the
Agora client, `window.alert`, the console and the session API. -/
inductive SEffect where
  | alert (msg : String)
  | logData
  | addListener (event : String)
  | removeAllListeners (event : String)
  | clientJoin (cred : Credentials)
  | clientUnpublish
  | clientLeave
  | setParams (metadata : List (String × Json))
  | apiCreateSession (req : SessionRequest)
  | apiCloseSession (sessionId : String)

/-- Hook state of `useStreaming` that the claims touch (`remoteStats` is
updated only inside the network-quality callback and is omitted). -/
structure StreamState where
  isJoined : Bool
  connected : Bool
  session : Option SessionData

/-- The effect sequence of `leaveChannel`: deregister the five channel
listeners, unpublish local tracks (its failure is caught and logged in the
source, so it never interrupts the sequence), then leave the channel. -/
def leaveChannelSeq : List SEffect :=
  [SEffect.removeAllListeners "exception",
   SEffect.removeAllListeners "user-published",
   SEffect.removeAllListeners "user-unpublished",
   SEffect.removeAllListeners "token-privilege-will-expire",
   SEffect.removeAllListeners "token-privilege-did-expire",
   SEffect.clientUnpublish,
   SEffect.clientLeave]

/-- The `leaveChannel` callback of `useStreaming.ts`. -/
def leaveChannel (st : StreamState) : StreamState × List SEffect :=
  ({ st with isJoined := false }, leaveChannelSeq)

/-- The `joinChannel` callback of `useStreaming.ts`: when already joined it
first runs the full leave sequence, then registers the channel listeners,
joins with the supplied credentials and registers the network-quality
listener. -/
def joinChannel (cred : Credentials) (st : StreamState) : StreamState × List SEffect :=
  let prior := if st.isJoined then leaveChannel st else (st, [])
  ({ prior.1 with isJoined := true },
   prior.2 ++
   [SEffect.addListener "exception",
    SEffect.addListener "user-published",
    SEffect.addListener "user-unpublished",
    SEffect.addListener "token-privilege-will-expire",
    SEffect.addListener "token-privilege-did-expire",
    SEffect.clientJoin cred,
    SEffect.addListener "network-quality"])

/-- The `joinChat` callback: register the stream-message listener, mark the
data path connected, then push the avatar parameters
(`updateAvatarParams` → `setAvatarParams`). -/
def joinChat (cfg : AvatarConfig) (st : StreamState) : StreamState × List SEffect :=
  ({ st with connected := true },
   [SEffect.addListener "stream-message", SEffect.setParams (buildAvatarMetadata cfg)])

/-- The `leaveChat` callback: deregister the stream-message listener and mark
the data path disconnected. -/
def leaveChat (st : StreamState) : StreamState × List SEffect :=
  ({ st with connected := false }, [SEffect.removeAllListeners "stream-message"])

/-- The `startStreaming` callback of `useStreaming.ts`.  `hasApi` tells
whether the `api` handle (host/token) is present; when it is absent the call
alerts and returns before any network activity.  `resp` is the response the
external `createSession` call would return. -/
def startStreaming (hasApi : Bool) (cfg : StreamConfig) (resp : SessionData)
    (st : StreamState) : StreamState × List SEffect :=
  if !hasApi then
    (st, [SEffect.alert "Please set host and token first"])
  else
    let req := buildSessionRequest cfg
    let st1 := { st with session := some resp }
    let cred := resp.credentials.getD resp.stream_urls
    let afterJoin := joinChannel cred st1
    let afterChat := joinChat (avatarCfgOf cfg) afterJoin.1
    (afterChat.1,
     [SEffect.apiCreateSession req, SEffect.logData] ++ afterJoin.2 ++ afterChat.2)

/-- The body of the `closeStreaming` callback as one closure instance of it
executes: leave the chat, leave the channel, then close the remote session
through the API when a session is recorded
(`await api?.closeSession(state.session._id)` — skipped when the api handle
is absent).  The `state.session` value the body reads is the one captured by
the closure at the render that created it (`capturedSession`); the
`leaveChat`/`leaveChannel` flag updates still land on the current state
because `updateState` uses a functional `setState`. -/
def closeStreamingClosure (hasApi : Bool) (capturedSession : Option SessionData)
    (st : StreamState) : StreamState × List SEffect :=
  let afterChat := leaveChat st
  let afterChannel := leaveChannel afterChat.1
  match capturedSession with
  | none => (afterChannel.1, afterChat.2 ++ afterChannel.2 ++ [SEffect.logData])
  | some s =>
    (afterChannel.1,
     afterChat.2 ++ afterChannel.2 ++
       (if hasApi then [SEffect.apiCloseSession s.sid] else []))

/-- The `closeStreaming` callback invoked through a fresh closure (the
explicit-stop path): `state.session` read by the body is the current one. -/
def closeStreaming (hasApi : Bool) (st : StreamState) : StreamState × List SEffect :=
  closeStreamingClosure hasApi st.session st

/-- The `onTokenDidExpire` handler as it is actually registered on the
channel: `useStreaming.ts` wraps it in `useCallback` with an EMPTY dependency
list, so the instance registered by `joinChannel` is the first render's one
forever.  The `closeStreaming` it calls is therefore the first render's
instance, whose closure captured the initial hook state with
`session: null` — the session lookup inside the teardown sees `none`
regardless of the session active at expiry time, logs `session not found`,
and returns before reaching `api.closeSession`. -/
def onTokenDidExpire (hasApi : Bool) (st : StreamState) : StreamState × List SEffect :=
  let closed := closeStreamingClosure hasApi none st
  (closed.1, SEffect.alert "Session expired" :: closed.2)

/-- Recognizer for the `client.leave()` effect. -/
def isLeaveEff : SEffect → Bool
  | SEffect.clientLeave => true
  | _ => false

/-- Recognizer for the `client.join(...)` effect. -/
def isJoinEff : SEffect → Bool
  | SEffect.clientJoin _ => true
  | _ => false

/-- Recognizer for the `api.createSession(...)` effect. -/
def isCreateSessionEff : SEffect → Bool
  | SEffect.apiCreateSession _ => true
  | _ => false

/-- Recognizer for the `api.closeSession(...)` effect. -/
def isCloseSessionEff : SEffect → Bool
  | SEffect.apiCloseSession _ => true
  | _ => false

/-- Object recognizer: a decoded envelope is a JSON object. -/
def Json.isObj : Json → Bool
  | Json.obj _ => true
  | _ => false

/-- The system message appended by the command-acknowledgment branch of
`handleStreamMessage` for an inbound `command` frame with payload fields
`cmd`, `code` (present) and optional `msg`. -/
def cmdAckMessage (now : Nat) (mid cmd : String) (code : Int) (msg : Option Json) : Message :=
  { id := "cmd_ack_" ++ mid ++ "_" ++ toString now,
    text := (if code == 1000 then "✅" else "❌") ++ " " ++ cmd ++ ": " ++
            (if code == 1000 then "Success" else "Failed") ++
            (if jsTruthyOpt msg then " (" ++ jsDisplayOpt msg ++ ")" else ""),
    isSentByMe := false, isSystemMessage := true,
    systemType := some (if cmd == "interrupt" then SystemEventType.interruptAck
                        else SystemEventType.setParamsAck),
    timestamp := now, metadata := none }

/-- Message lists reachable through the `useMessageState` operations, each
state-commit followed by the auto-cleanup effect (which fires whenever more
than 15 system messages are present). -/
inductive ReachableMsgs : List Message → Prop where
  | init : ReachableMsgs []
  | add (now : Nat) (mid text : String) (isSys : Bool)
      (sysType : Option SystemEventType) (md : Option Json) {l : List Message} :
      ReachableMsgs l →
      ReachableMsgs (autoCleanup (addReceivedMessage now mid text isSys sysType md l))
  | send (connected : Bool) (now : Nat) (transportOk : Bool)
      (input : String) (sending : Bool) {l : List Message} :
      ReachableMsgs l →
      ReachableMsgs (autoCleanup
        ((sendMessage connected now transportOk
          { messages := l, inputMessage := input, sending := sending }).messages))
  | clear {l : List Message} : ReachableMsgs l → ReachableMsgs []
  | cleanup {l : List Message} :
      ReachableMsgs l → ReachableMsgs (cleanupOldSystemMessages l)

/-- Sample credential block used by concrete witness instances. -/
def sampleCred : Credentials :=
  { agora_app_id := "a", agora_channel := "c", agora_token := "t", agora_uid := 1 }

/-- Sample session record used by concrete witness instances. -/
def sampleSession : SessionData :=
  { sid := "s1", credentials := none, stream_urls := sampleCred }

/-- Sample stream configuration used by concrete witness instances. -/
def sampleConfig : StreamConfig :=
  { avatarId := "av", knowledgeId := "", sessionDuration := 10, voiceId := "",
    voiceUrl := "", backgroundUrl := "", language := "", modeType := 2,
    voiceParams := [] }

/-- Sample stream state with an active session, used by concrete witness
instances. -/
def sampleActiveState : StreamState :=
  { isJoined := true, connected := true, session := some sampleSession }

theorem findIdx?_all_false {α : Type} {p : α → Bool} {l : List α}
    (h : ∀ x ∈ l, p x = false) : l.findIdx? p = none := by
  rw [List.findIdx?_eq_none_iff]
  intro x hx
  exact h x hx

theorem addReceivedMessage_fresh (now : Nat) (mid text : String)
    (sysType : Option SystemEventType) (md : Option Json) (prev : List Message)
    (h : ∀ m ∈ prev, (m.id == mid) = false) :
    addReceivedMessage now mid text false sysType md prev =
      prev ++ [{ id := mid, text := text, isSentByMe := false,
                 isSystemMessage := false, systemType := sysType,
                 timestamp := now, metadata := md }] := by
  unfold addReceivedMessage
  rw [if_neg (by simp)]
  rw [findIdx?_all_false h]

theorem addReceivedMessage_update (now : Nat) (mid text : String)
    (sysType : Option SystemEventType) (md : Option Json)
    (orig : List Message) (m : Message)
    (hfresh : ∀ x ∈ orig, (x.id == mid) = false)
    (hm : (m.id == mid) = true) :
    addReceivedMessage now mid text false sysType md (orig ++ [m]) =
      orig ++ [{ m with text := m.text ++ text, metadata := md }] := by
  unfold addReceivedMessage
  rw [if_neg (by simp)]
  have hidx : (orig ++ [m]).findIdx? (fun x => x.id == mid) = some orig.length := by
    rw [List.findIdx?_append, findIdx?_all_false hfresh]
    simp [List.findIdx?_cons, hm]
  rw [hidx]
  have hget : (orig ++ [m])[orig.length]? = some m := List.getElem?_concat_length orig m
  simp only [hget]
  rw [List.set_append_right _ _ (Nat.le_refl _)]
  simp


/-- C3: an inbound frame whose decoded envelope (a JSON object) has a
version field different from 2 changes no handler state, surfaces no
message, and raises no error: the dispatch returns the state unchanged with
a plain successful result (a protocol-mismatch no-op). -/
theorem c3_version_mismatch_silent_noop
    (now : Nat) (parse : List Nat → Except String Json) (body : List Nat)
    (st : ChatState) (j : Json)
    (hparse : parse body = Except.ok j)
    (hobj : Json.isObj j = true)
    (hv : isNumTwo (jsonGet j "v") = false) :
    handleStreamMessage now parse body st = st ∧
    processEnvelope now j st = Except.ok st := by
  cases j with
  | obj kvs =>
    have hpe : processEnvelope now (Json.obj kvs) st = Except.ok st := by
      unfold processEnvelope
      simp [hv]
    refine ⟨?_, hpe⟩
    unfold handleStreamMessage
    rw [hparse]
    show stepDecoded now (Json.obj kvs) st = st
    unfold stepDecoded
    rw [hpe]
  | null => simp [Json.isObj] at hobj
  | bool b => simp [Json.isObj] at hobj
  | num n => simp [Json.isObj] at hobj
  | str s => simp [Json.isObj] at hobj
  | arr xs => simp [Json.isObj] at hobj

/-- Witness for `c3_version_mismatch_silent_noop`: a concrete version-1
envelope is silently discarded from the empty handler state. -/
theorem c3_version_mismatch_silent_noop_witness :
    handleStreamMessage 7
      (fun _ => Except.ok (Json.obj [("v", Json.num 1), ("type", Json.str "chat"),
        ("mid", Json.str "m1"), ("pld", Json.obj [("text", Json.str "hello")])]))
      [0] { messages := [], isAvatarSpeaking := false } =
      { messages := [], isAvatarSpeaking := false } :=
  (c3_version_mismatch_silent_noop 7 _ [0] { messages := [], isAvatarSpeaking := false }
    (Json.obj [("v", Json.num 1), ("type", Json.str "chat"),
        ("mid", Json.str "m1"), ("pld", Json.obj [("text", Json.str "hello")])])
    rfl rfl (by decide)).1

/-- C4: the decode/dispatch boundary never lets a failure propagate: whenever
the parse-plus-dispatch of a frame body throws (malformed JSON, a `null`
envelope, a missing payload), `handleStreamMessage` catches it and returns
the state unchanged, so the bad frame has no effect on the processing of any
subsequent frames. -/
theorem c4_decode_boundary_never_propagates
    (now : Nat) (parse : List Nat → Except String Json) (body : List Nat)
    (st : ChatState) (e : String)
    (herr : ((parse body).bind (fun j => processEnvelope now j st)) = Except.error e) :
    handleStreamMessage now parse body st = st ∧
    ∀ rest : List (List Nat),
      processBodies now parse (body :: rest) st = processBodies now parse rest st := by
  have hmain : handleStreamMessage now parse body st = st := by
    unfold handleStreamMessage
    cases hp : parse body with
    | error msg => rfl
    | ok j =>
      rw [hp] at herr
      simp only [Except.bind] at herr
      show stepDecoded now j st = st
      unfold stepDecoded
      rw [herr]
  refine ⟨hmain, ?_⟩
  intro rest
  unfold processBodies
  rw [List.foldl_cons, hmain]

/-- Witness for `c4_decode_boundary_never_propagates`: a frame whose bytes
are not well-formed JSON (the parser throws) leaves a nonempty handler state
untouched. -/
theorem c4_decode_boundary_never_propagates_witness :
    handleStreamMessage 3 (fun _ => Except.error "Unexpected token")
      [123] { messages := [{ id := "a", text := "t", isSentByMe := true, timestamp := 1 }],
              isAvatarSpeaking := false } =
      { messages := [{ id := "a", text := "t", isSentByMe := true, timestamp := 1 }],
        isAvatarSpeaking := false } :=
  (c4_decode_boundary_never_propagates 3 (fun _ => Except.error "Unexpected token") [123]
    { messages := [{ id := "a", text := "t", isSentByMe := true, timestamp := 1 }],
      isAvatarSpeaking := false } "Unexpected token" rfl).1

/-- C5: when the session API handle (host/token) is absent, `startStreaming`
fails immediately with the configuration alert and performs no network
effect: no `createSession` request and no channel join; the state is
unchanged. -/
theorem c5_missing_credentials_no_network
    (cfg : StreamConfig) (resp : SessionData) (st : StreamState) :
    startStreaming false cfg resp st =
        (st, [SEffect.alert "Please set host and token first"]) ∧
    (startStreaming false cfg resp st).2.countP isCreateSessionEff = 0 ∧
    (startStreaming false cfg resp st).2.countP isJoinEff = 0 := by
  refine ⟨rfl, ?_, ?_⟩ <;> rfl

theorem stepDecoded_chatEnv (now : Nat) (mid : String) (idx : Nat) (fin : Bool)
    (text : String) (st : ChatState) :
    stepDecoded now (chatEnv mid idx fin text) st =
      { st with messages :=
          addReceivedMessage now ("chat_" ++ mid) text false none none st.messages } := by
  unfold stepDecoded processEnvelope chatEnv
  simp [jsonGet, isNumTwo, isStrEq, jsDisplayOpt, jsDisplay, List.lookup]

theorem processChatChunks_cons (now : Nat) (mid : String) (c : Nat × Bool × String)
    (chunks : List (Nat × Bool × String)) (st : ChatState) :
    processChatChunks now mid (c :: chunks) st =
      processChatChunks now mid chunks (stepDecoded now (chatEnv mid c.1 c.2.1 c.2.2) st) := by
  rfl


theorem processChatChunks_update (now : Nat) (mid : String)
    (chunks : List (Nat × Bool × String)) (orig : List Message) (m : Message)
    (spk : Bool)
    (hfresh : ∀ x ∈ orig, (x.id == ("chat_" ++ mid)) = false)
    (hm : (m.id == ("chat_" ++ mid)) = true)
    (hmd : m.metadata = none) :
    processChatChunks now mid chunks { messages := orig ++ [m], isAvatarSpeaking := spk } =
      { messages := orig ++
          [{ m with text := m.text ++ concatTexts (chunks.map (fun x => x.2.2)) }],
        isAvatarSpeaking := spk } := by
  induction chunks generalizing m with
  | nil =>
    simp only [processChatChunks, List.foldl_nil, List.map_nil]
    have h0 : concatTexts [] = "" := rfl
    rw [h0]
    cases m
    simp_all [String.append_empty]
  | cons c rest ih =>
    rw [processChatChunks_cons, stepDecoded_chatEnv]
    have hupd := addReceivedMessage_update now ("chat_" ++ mid) c.2.2 none none orig m hfresh hm
    simp only [hupd]
    have hm2 : (({ m with text := m.text ++ c.2.2, metadata := none } : Message).id ==
        ("chat_" ++ mid)) = true := hm
    have hih := ih { m with text := m.text ++ c.2.2, metadata := none } hm2 rfl
    rw [hih]
    have h1 : concatTexts ((c :: rest).map (fun x => x.2.2)) =
        c.2.2 ++ concatTexts (rest.map (fun x => x.2.2)) := rfl
    rw [h1]
    cases m
    simp_all [String.append_assoc]

/-- C1 (counterexample): the reassembly is not `chunkIndex`-ordered.  Feeding
the three chunks of one message with texts A, B, C and `chunkIndex` 0, 1, 2
in arrival order [1, 0, 2] yields the message text BAC, while arrival order
[0, 1, 2] yields ABC — the two runs do not produce the identical complete
message, contradicting the claim at this concrete input. -/
theorem c1_counterexample :
    (processChatChunks 5 "m" [(1, false, "B"), (0, false, "A"), (2, true, "C")]
        { messages := [], isAvatarSpeaking := false }).messages.map (fun m => m.text) ≠
    (processChatChunks 5 "m" [(0, false, "A"), (1, false, "B"), (2, true, "C")]
        { messages := [], isAvatarSpeaking := false }).messages.map (fun m => m.text) := by
  simp only [processChatChunks_cons, stepDecoded_chatEnv]
  decide

/-- C1 (amended): for every chat logical message delivered as chunk envelopes
sharing one `messageId`, the reassembled text handed to the application is
the chunks contents concatenated in ARRIVAL order (the `chunkIndex` and
`isFinal` tags are ignored by the receiver), so only chunks arriving already
in `chunkIndex` order yield the index-ordered concatenation. -/
theorem c1_amended_arrival_order_concat (now : Nat) (mid : String)
    (c : Nat × Bool × String) (rest : List (Nat × Bool × String)) (st : ChatState)
    (hfresh : ∀ x ∈ st.messages, (x.id == ("chat_" ++ mid)) = false) :
    processChatChunks now mid (c :: rest) st =
      { messages := st.messages ++
          [{ id := "chat_" ++ mid,
             text := concatTexts ((c :: rest).map (fun x => x.2.2)),
             isSentByMe := false, isSystemMessage := false, systemType := none,
             timestamp := now, metadata := none }],
        isAvatarSpeaking := st.isAvatarSpeaking } := by
  rw [processChatChunks_cons, stepDecoded_chatEnv]
  have hadd := addReceivedMessage_fresh now ("chat_" ++ mid) c.2.2 none none st.messages hfresh
  rw [hadd]
  have hupd := processChatChunks_update now mid rest st.messages
    ({ id := "chat_" ++ mid, text := c.2.2, isSentByMe := false,
       isSystemMessage := false, systemType := none, timestamp := now,
       metadata := none }) st.isAvatarSpeaking hfresh (by simp) rfl
  calc processChatChunks now mid rest
        { messages := st.messages ++
            [{ id := "chat_" ++ mid, text := c.2.2, isSentByMe := false,
               isSystemMessage := false, systemType := none, timestamp := now,
               metadata := none }],
          isAvatarSpeaking := st.isAvatarSpeaking } = _ := hupd
    _ = _ := by
        have h1 : concatTexts ((c :: rest).map (fun x => x.2.2)) =
            c.2.2 ++ concatTexts (rest.map (fun x => x.2.2)) := rfl
        rw [h1]

/-- Witness for `c1_amended_arrival_order_concat`: two chunks arriving in the
order B then A (indices 1 then 0) assemble into the single message BA. -/
theorem c1_amended_arrival_order_concat_witness :
    processChatChunks 9 "w" [(1, false, "B"), (0, true, "A")]
        { messages := [], isAvatarSpeaking := false } =
      { messages := [{ id := "chat_w", text := "BA", isSentByMe := false,
                       isSystemMessage := false, systemType := none,
                       timestamp := 9, metadata := none }],
        isAvatarSpeaking := false } := by
  have h := c1_amended_arrival_order_concat 9 "w" (1, false, "B") [(0, true, "A")]
    { messages := [], isAvatarSpeaking := false } (by intro x hx; cases hx)
  rw [h]
  rfl

theorem stepDecoded_cmdAckEnv (now : Nat) (mid cmd : String) (code : Int)
    (msg : Option Json) (st : ChatState) :
    stepDecoded now (cmdAckEnv mid cmd code msg) st =
      { st with messages := st.messages ++ [cmdAckMessage now mid cmd code msg] } := by
  unfold stepDecoded processEnvelope cmdAckEnv cmdAckMessage addReceivedMessage
  cases msg <;>
    simp [jsonGet, isNumTwo, isStrEq, isNumEq, jsDisplayOpt, jsDisplay, jsTruthyOpt,
      List.lookup]

/-- C2 (counterexample): two command-acknowledgment envelopes sharing
`messageId` m1 (cmd `interrupt`, code 1000), arriving at times 5 and 6, are
both surfaced: processing the second grows the message list from one entry
to two, so the second is not a duplicate no-op, contradicting the claim at
this concrete input. -/
theorem c2_counterexample :
    (stepDecoded 6 (cmdAckEnv "m1" "interrupt" 1000 none)
      (stepDecoded 5 (cmdAckEnv "m1" "interrupt" 1000 none)
        { messages := [], isAvatarSpeaking := false })).messages.length ≠
    (stepDecoded 5 (cmdAckEnv "m1" "interrupt" 1000 none)
      { messages := [], isAvatarSpeaking := false }).messages.length := by
  simp only [stepDecoded_cmdAckEnv]
  decide

/-- C2 (amended): every command-acknowledgment envelope appends a fresh
application-visible system entry whose id is suffixed with the arrival time;
for a pair sharing one `messageId`, processing both surfaces two entries —
the first creates one and the second appends another, rather than being
treated as a duplicate no-op. -/
theorem c2_amended_ack_always_appends (now1 now2 : Nat) (mid cmd : String)
    (code : Int) (msg : Option Json) (st : ChatState) :
    (stepDecoded now1 (cmdAckEnv mid cmd code msg) st).messages =
        st.messages ++ [cmdAckMessage now1 mid cmd code msg] ∧
    (stepDecoded now2 (cmdAckEnv mid cmd code msg)
        (stepDecoded now1 (cmdAckEnv mid cmd code msg) st)).messages =
      st.messages ++
        [cmdAckMessage now1 mid cmd code msg, cmdAckMessage now2 mid cmd code msg] := by
  rw [stepDecoded_cmdAckEnv, stepDecoded_cmdAckEnv]
  simp

/-- C10: `sendMessage` is transactional at the UI-state level: with an
empty/whitespace-only input, or when not connected, or while a previous send
is in flight, it is a no-op; and when the transport send rejects, the
optimistically appended message keyed by `Date.now()` is filtered out again,
so the message list ends exactly where it started (given the fresh key does
not collide with an existing id), with the input cleared and the in-flight
flag reset by the `finally` block. -/
theorem c10_send_transactional (connected : Bool) (now : Nat) (transportOk : Bool)
    (st : SendState) :
    ((jsTrim st.inputMessage == "" || !connected || st.sending) = true →
      sendMessage connected now transportOk st = st) ∧
    ((jsTrim st.inputMessage == "" || !connected || st.sending) = false →
      (∀ m ∈ st.messages, (m.id == toString now) = false) →
      (sendMessage connected now false st).messages = st.messages ∧
      (sendMessage connected now false st).inputMessage = "" ∧
      (sendMessage connected now false st).sending = false) := by
  constructor
  · intro h
    unfold sendMessage
    rw [if_pos h]
  · intro h hfresh
    unfold sendMessage
    rw [if_neg (by simp [h])]
    refine ⟨?_, rfl, rfl⟩
    simp only [if_neg (Bool.false_ne_true)]
    rw [List.filter_append]
    have h1 : st.messages.filter
        (fun m => !(m.id == toString now)) = st.messages := by
      rw [List.filter_eq_self]
      intro a ha
      rw [hfresh a ha]
      rfl
    rw [h1]
    simp

/-- Witness for `c10_send_transactional`: a failed transport send from the
state with input hi and an empty message list leaves the message list
empty. -/
theorem c10_send_transactional_witness :
    (sendMessage true 5 false
      { messages := [], inputMessage := "hi", sending := false }).messages = [] :=
  ((c10_send_transactional true 5 false
      { messages := [], inputMessage := "hi", sending := false }).2
    (by decide) (by intro m hm; cases hm)).1

theorem jsonStringify_obj_ne_empty (kvs : List (String × Json)) :
    (jsonStringify (Json.obj kvs) == "") = false := by
  rw [beq_eq_false_iff_ne]
  intro h
  have hlen := congrArg String.length h
  rw [jsonStringify] at hlen
  simp only [String.length_append] at hlen
  have h1 : ("\x7b" : String).length = 1 := rfl
  have h2 : ("\x7d" : String).length = 1 := rfl
  have h3 : ("" : String).length = 0 := rfl
  omega

theorem lookup_metaKeep_cons_ne (k k1 : String) (ov : Option Json)
    (rest : List (String × Option Json)) (h : (k == k1) = false) :
    (((k1, ov) :: rest).filterMap metaKeep).lookup k =
      (rest.filterMap metaKeep).lookup k := by
  cases ov with
  | none => rfl
  | some v =>
    by_cases hv : jsTruthy v = true
    · simp [metaKeep, hv, List.lookup, h]
    · simp [metaKeep, hv]

theorem lookup_metaKeep_cons_eq (k : String) (ov : Option Json)
    (rest : List (String × Option Json)) :
    (((k, ov) :: rest).filterMap metaKeep).lookup k =
      (match ov with
       | some v => if jsTruthy v then some v else (rest.filterMap metaKeep).lookup k
       | none => (rest.filterMap metaKeep).lookup k) := by
  cases ov with
  | none => rfl
  | some v =>
    by_cases hv : jsTruthy v = true
    · simp [metaKeep, hv, List.lookup]
    · simp [metaKeep, hv]

/-- C8: each optional configuration value — knowledge id, voice id, voice
URL, language, mode, background URL, voice params — is omitted from the
`createSession` request exactly when it is falsy/empty (empty string, zero
mode, empty params object), and each corresponding avatar-parameter metadata
entry (`vid`/`vurl`/`lang`/`mode`/`bgurl`/`vparams`) is omitted exactly when
its value is falsy/empty; non-empty values are always included. -/
theorem c8_falsy_fields_omitted (c : StreamConfig) (a : AvatarConfig) :
    ((buildSessionRequest c).knowledge_id = none ↔ c.knowledgeId = "") ∧
    ((buildSessionRequest c).voice_id = none ↔ c.voiceId = "") ∧
    ((buildSessionRequest c).voice_url = none ↔ c.voiceUrl = "") ∧
    ((buildSessionRequest c).language = none ↔ c.language = "") ∧
    ((buildSessionRequest c).mode_type = none ↔ c.modeType = 0) ∧
    ((buildSessionRequest c).background_url = none ↔ c.backgroundUrl = "") ∧
    ((buildSessionRequest c).voice_params = none ↔ c.voiceParams = []) ∧
    ((buildAvatarMetadata a).lookup "vid" = none ↔ a.voiceId = "") ∧
    ((buildAvatarMetadata a).lookup "vurl" = none ↔ a.voiceUrl = "") ∧
    ((buildAvatarMetadata a).lookup "lang" = none ↔ a.language = "") ∧
    ((buildAvatarMetadata a).lookup "mode" = none ↔ a.modeType = 0) ∧
    ((buildAvatarMetadata a).lookup "bgurl" = none ↔ a.backgroundUrl = "") ∧
    ((buildAvatarMetadata a).lookup "vparams" = none ↔ a.voiceParams = []) := by
  refine ⟨?_, ?_, ?_, ?_, ?_, ?_, ?_, ?_, ?_, ?_, ?_, ?_, ?_⟩
  · by_cases h : c.knowledgeId = "" <;> simp [buildSessionRequest, h]
  · by_cases h : c.voiceId = "" <;> simp [buildSessionRequest, h]
  · by_cases h : c.voiceUrl = "" <;> simp [buildSessionRequest, h]
  · by_cases h : c.language = "" <;> simp [buildSessionRequest, h]
  · by_cases h : c.modeType = 0 <;> simp [buildSessionRequest, h]
  · by_cases h : c.backgroundUrl = "" <;> simp [buildSessionRequest, h]
  · by_cases h : c.voiceParams = [] <;>
      simp [buildSessionRequest, h, List.length_pos, List.length_eq_zero]
  · rw [buildAvatarMetadata]
    rw [lookup_metaKeep_cons_eq]
    rw [lookup_metaKeep_cons_ne "vid" "vurl" _ _ (by decide)]
    rw [lookup_metaKeep_cons_ne "vid" "lang" _ _ (by decide)]
    rw [lookup_metaKeep_cons_ne "vid" "mode" _ _ (by decide)]
    rw [lookup_metaKeep_cons_ne "vid" "bgurl" _ _ (by decide)]
    rw [lookup_metaKeep_cons_ne "vid" "vparams" _ _ (by decide)]
    by_cases h : a.voiceId = "" <;>
      simp [jsTruthy, h]
  · rw [buildAvatarMetadata]
    rw [lookup_metaKeep_cons_ne "vurl" "vid" _ _ (by decide)]
    rw [lookup_metaKeep_cons_eq]
    rw [lookup_metaKeep_cons_ne "vurl" "lang" _ _ (by decide)]
    rw [lookup_metaKeep_cons_ne "vurl" "mode" _ _ (by decide)]
    rw [lookup_metaKeep_cons_ne "vurl" "bgurl" _ _ (by decide)]
    rw [lookup_metaKeep_cons_ne "vurl" "vparams" _ _ (by decide)]
    by_cases h : a.voiceUrl = "" <;>
      simp [jsTruthy, h]
  · rw [buildAvatarMetadata]
    rw [lookup_metaKeep_cons_ne "lang" "vid" _ _ (by decide)]
    rw [lookup_metaKeep_cons_ne "lang" "vurl" _ _ (by decide)]
    rw [lookup_metaKeep_cons_eq]
    rw [lookup_metaKeep_cons_ne "lang" "mode" _ _ (by decide)]
    rw [lookup_metaKeep_cons_ne "lang" "bgurl" _ _ (by decide)]
    rw [lookup_metaKeep_cons_ne "lang" "vparams" _ _ (by decide)]
    by_cases h : a.language = "" <;>
      simp [jsTruthy, h]
  · rw [buildAvatarMetadata]
    rw [lookup_metaKeep_cons_ne "mode" "vid" _ _ (by decide)]
    rw [lookup_metaKeep_cons_ne "mode" "vurl" _ _ (by decide)]
    rw [lookup_metaKeep_cons_ne "mode" "lang" _ _ (by decide)]
    rw [lookup_metaKeep_cons_eq]
    rw [lookup_metaKeep_cons_ne "mode" "bgurl" _ _ (by decide)]
    rw [lookup_metaKeep_cons_ne "mode" "vparams" _ _ (by decide)]
    by_cases h : a.modeType = 0 <;>
      simp [jsTruthy, h]
  · rw [buildAvatarMetadata]
    rw [lookup_metaKeep_cons_ne "bgurl" "vid" _ _ (by decide)]
    rw [lookup_metaKeep_cons_ne "bgurl" "vurl" _ _ (by decide)]
    rw [lookup_metaKeep_cons_ne "bgurl" "lang" _ _ (by decide)]
    rw [lookup_metaKeep_cons_ne "bgurl" "mode" _ _ (by decide)]
    rw [lookup_metaKeep_cons_eq]
    rw [lookup_metaKeep_cons_ne "bgurl" "vparams" _ _ (by decide)]
    by_cases h : a.backgroundUrl = "" <;>
      simp [jsTruthy, h]
  · rw [buildAvatarMetadata]
    rw [lookup_metaKeep_cons_ne "vparams" "vid" _ _ (by decide)]
    rw [lookup_metaKeep_cons_ne "vparams" "vurl" _ _ (by decide)]
    rw [lookup_metaKeep_cons_ne "vparams" "lang" _ _ (by decide)]
    rw [lookup_metaKeep_cons_ne "vparams" "mode" _ _ (by decide)]
    rw [lookup_metaKeep_cons_ne "vparams" "bgurl" _ _ (by decide)]
    rw [lookup_metaKeep_cons_eq]
    by_cases h : a.voiceParams = [] <;>
      simp [serializeVoiceParams, jsTruthy, h, jsonStringify_obj_ne_empty, List.length_pos, List.length_eq_zero]

/-- C6: contrary to the claim, a token-did-expire event during an active
session (here the concrete state with session s1 recorded, joined and
connected) invokes `closeSession` ZERO times: the registered handler is the
first render's `useCallback([])` instance, whose `closeStreaming` closure
captured the initial `session: null`, so the teardown alerts, leaves the
chat and the channel, logs `session not found`, and returns before the API
call.  The channel/chat teardown itself still runs and the orchestrator ends
not joined and not connected. -/
theorem c6_token_expire_stale_closure_no_close :
    sampleActiveState.session = some sampleSession ∧
    (onTokenDidExpire true sampleActiveState).2.countP isCloseSessionEff = 0 ∧
    (onTokenDidExpire true sampleActiveState).2 =
        SEffect.alert "Session expired" ::
          (SEffect.removeAllListeners "stream-message" ::
            (leaveChannelSeq ++ [SEffect.logData])) ∧
    (onTokenDidExpire true sampleActiveState).1.isJoined = false ∧
    (onTokenDidExpire true sampleActiveState).1.connected = false := by
  refine ⟨rfl, rfl, ?_, rfl, rfl⟩
  unfold onTokenDidExpire closeStreamingClosure leaveChat leaveChannel
  simp [leaveChannelSeq]

/-- C7: starting from an un-joined state, the first `startStreaming` performs
no leave; it ends joined; calling `startStreaming` again without an
intervening stop performs exactly one leave sequence and exactly one join,
with the leave strictly before the join — so no two channel memberships are
ever concurrently active. -/
theorem c7_rejoin_single_leave (cfg : StreamConfig) (resp : SessionData)
    (st0 : StreamState) (h0 : st0.isJoined = false) :
    (startStreaming true cfg resp st0).2.countP isLeaveEff = 0 ∧
    (startStreaming true cfg resp st0).1.isJoined = true ∧
    (startStreaming true cfg resp
        (startStreaming true cfg resp st0).1).2.countP isLeaveEff = 1 ∧
    (startStreaming true cfg resp
        (startStreaming true cfg resp st0).1).2.countP isJoinEff = 1 ∧
    (startStreaming true cfg resp
        (startStreaming true cfg resp st0).1).2.findIdx isLeaveEff <
      (startStreaming true cfg resp
        (startStreaming true cfg resp st0).1).2.findIdx isJoinEff := by
  unfold startStreaming joinChannel leaveChannel joinChat
  simp [h0, leaveChannelSeq, isLeaveEff, isJoinEff, List.findIdx_cons]

/-- Witness for `c7_rejoin_single_leave`: from the idle initial state, a
repeated start performs its single leave before the new join. -/
theorem c7_rejoin_single_leave_witness :
    (startStreaming true sampleConfig sampleSession
        (startStreaming true sampleConfig sampleSession
          { isJoined := false, connected := false, session := none }).1).2.countP
      isLeaveEff = 1 :=
  (c7_rejoin_single_leave sampleConfig sampleSession
    { isJoined := false, connected := false, session := none } rfl).2.2.1

theorem countP_set_le {α : Type} (p : α → Bool) (l : List α) (i : Nat) (a : α) :
    (l.set i a).countP p ≤ l.countP p + 1 := by
  induction l generalizing i with
  | nil => simp
  | cons x t ih =>
    cases i with
    | zero =>
      simp only [List.set_cons_zero, List.countP_cons]
      by_cases hp : p a = true <;> by_cases hx : p x = true <;>
        simp [hp, hx] <;> omega
    | succ n =>
      simp only [List.set_cons_succ, List.countP_cons]
      have := ih n
      by_cases hx : p x = true <;> simp [hx] <;> omega

theorem countP_filter_le {α : Type} (p q : α → Bool) (l : List α) :
    (l.filter q).countP p ≤ l.countP p := by
  induction l with
  | nil => simp
  | cons a t ih =>
    by_cases hq : q a = true <;> by_cases hp : p a = true <;>
      simp [List.filter_cons, List.countP_cons, hq, hp] <;> omega

theorem systemCount_eq_countP (l : List Message) :
    systemCount l = l.countP (fun m => m.isSystemMessage) := by
  unfold systemCount
  rw [List.countP_eq_length_filter]

theorem systemCount_cleanup_eq (l : List Message) :
    systemCount (cleanupOldSystemMessages l) = min (systemCount l) 10 := by
  have hperm : List.Perm (cleanupOldSystemMessages l)
      (l.filter (fun m => !m.isSystemMessage) ++
        ((l.filter (fun m => m.isSystemMessage)).drop
          ((l.filter (fun m => m.isSystemMessage)).length - 10))) := by
    unfold cleanupOldSystemMessages
    exact List.mergeSort_perm _ _
  rw [systemCount_eq_countP, hperm.countP_eq]
  rw [List.countP_append]
  have h1 : (l.filter (fun m => !m.isSystemMessage)).countP
      (fun m => m.isSystemMessage) = 0 := by
    rw [List.countP_filter]
    simp
  have h2 : ((l.filter (fun m => m.isSystemMessage)).drop
      ((l.filter (fun m => m.isSystemMessage)).length - 10)).countP
        (fun m => m.isSystemMessage) =
      ((l.filter (fun m => m.isSystemMessage)).drop
        ((l.filter (fun m => m.isSystemMessage)).length - 10)).length := by
    rw [List.countP_eq_length]
    intro a ha
    have := List.mem_filter.mp (List.mem_of_mem_drop ha)
    exact this.2
  rw [h1, h2, List.length_drop]
  unfold systemCount
  omega

theorem systemCount_cleanup_le (l : List Message) :
    systemCount (cleanupOldSystemMessages l) ≤ 10 := by
  rw [systemCount_cleanup_eq]
  omega

theorem systemCount_autoCleanup_le (l : List Message)
    (h : systemCount l ≤ 16) : systemCount (autoCleanup l) ≤ 15 := by
  unfold autoCleanup
  split
  · exact le_trans (systemCount_cleanup_le l) (by omega)
  · omega

theorem systemCount_addReceivedMessage (now : Nat) (mid text : String)
    (isSys : Bool) (sysType : Option SystemEventType) (md : Option Json)
    (l : List Message) :
    systemCount (addReceivedMessage now mid text isSys sysType md l) ≤
      systemCount l + 1 := by
  unfold addReceivedMessage
  split
  · rw [systemCount_eq_countP, systemCount_eq_countP, List.countP_append]
    simp [List.countP_cons]
  · split
    · split
      · rw [systemCount_eq_countP, systemCount_eq_countP]
        exact countP_set_le _ l _ _
      · omega
    · rw [systemCount_eq_countP, systemCount_eq_countP, List.countP_append]
      simp [List.countP_cons]

theorem systemCount_sendMessage (connected : Bool) (now : Nat)
    (transportOk : Bool) (st : SendState) :
    systemCount ((sendMessage connected now transportOk st).messages) ≤
      systemCount st.messages := by
  unfold sendMessage
  split
  · omega
  · split
    · rw [systemCount_eq_countP, systemCount_eq_countP, List.countP_append]
      simp [List.countP_cons]
    · rw [systemCount_eq_countP, systemCount_eq_countP]
      refine le_trans (countP_filter_le _ _ _) ?_
      rw [List.countP_append]
      simp [List.countP_cons]

theorem cleanup_filter_regular (l : List Message) :
    List.Perm ((cleanupOldSystemMessages l).filter (fun m => !m.isSystemMessage))
      (l.filter (fun m => !m.isSystemMessage)) := by
  have hperm : List.Perm (cleanupOldSystemMessages l)
      (l.filter (fun m => !m.isSystemMessage) ++
        ((l.filter (fun m => m.isSystemMessage)).drop
          ((l.filter (fun m => m.isSystemMessage)).length - 10))) := by
    unfold cleanupOldSystemMessages
    exact List.mergeSort_perm _ _
  refine (hperm.filter _).trans ?_
  rw [List.filter_append]
  have h1 : (l.filter (fun m => !m.isSystemMessage)).filter
      (fun m => !m.isSystemMessage) = l.filter (fun m => !m.isSystemMessage) := by
    rw [List.filter_eq_self]
    intro a ha
    exact (List.mem_filter.mp ha).2
  have h2 : ((l.filter (fun m => m.isSystemMessage)).drop
      ((l.filter (fun m => m.isSystemMessage)).length - 10)).filter
        (fun m => !m.isSystemMessage) = [] := by
    rw [List.filter_eq_nil_iff]
    intro a ha
    have := (List.mem_filter.mp (List.mem_of_mem_drop ha)).2
    simp [this]
  rw [h1, h2, List.append_nil]

theorem cleanup_filter_system (l : List Message) :
    List.Perm ((cleanupOldSystemMessages l).filter (fun m => m.isSystemMessage))
      ((l.filter (fun m => m.isSystemMessage)).drop
        ((l.filter (fun m => m.isSystemMessage)).length - 10)) := by
  have hperm : List.Perm (cleanupOldSystemMessages l)
      (l.filter (fun m => !m.isSystemMessage) ++
        ((l.filter (fun m => m.isSystemMessage)).drop
          ((l.filter (fun m => m.isSystemMessage)).length - 10))) := by
    unfold cleanupOldSystemMessages
    exact List.mergeSort_perm _ _
  refine (hperm.filter _).trans ?_
  rw [List.filter_append]
  have h1 : (l.filter (fun m => !m.isSystemMessage)).filter
      (fun m => m.isSystemMessage) = [] := by
    rw [List.filter_eq_nil_iff]
    intro a ha
    have := (List.mem_filter.mp ha).2
    simp_all
  have h2 : ((l.filter (fun m => m.isSystemMessage)).drop
      ((l.filter (fun m => m.isSystemMessage)).length - 10)).filter
        (fun m => m.isSystemMessage) =
      (l.filter (fun m => m.isSystemMessage)).drop
        ((l.filter (fun m => m.isSystemMessage)).length - 10) := by
    rw [List.filter_eq_self]
    intro a ha
    exact (List.mem_filter.mp (List.mem_of_mem_drop ha)).2
  rw [h1, h2, List.nil_append]

theorem reachable_systemCount_le (l : List Message) (h : ReachableMsgs l) :
    systemCount l ≤ 15 := by
  induction h with
  | init => simp [systemCount]
  | add now mid text isSys sysType md hr ih =>
    rename_i l1
    apply systemCount_autoCleanup_le
    have := systemCount_addReceivedMessage now mid text isSys sysType md l1
    omega
  | send connected now transportOk input sending hr ih =>
    rename_i l1
    apply systemCount_autoCleanup_le
    have hs := systemCount_sendMessage connected now transportOk
      { messages := l1, inputMessage := input, sending := sending }
    have hproj : ({ messages := l1, inputMessage := input, sending := sending } : SendState).messages = l1 := rfl
    rw [hproj] at hs
    omega
  | clear hr ih => simp [systemCount]
  | cleanup hr ih =>
    rename_i l1
    have := systemCount_cleanup_le l1
    omega

/-- C9: `cleanupOldSystemMessages` retains exactly the most recent 10 system
messages (so min(count, 10), never more than 10) while every regular chat
message survives the aging; and in every message list reachable through the
hook operations with the auto-cleanup effect, the number of retained system
messages never exceeds the fixed bound 15 (the cleanup trigger threshold). -/
theorem c9_system_message_bound :
    (∀ l : List Message,
      systemCount (cleanupOldSystemMessages l) = min (systemCount l) 10 ∧
      List.Perm ((cleanupOldSystemMessages l).filter (fun m => !m.isSystemMessage))
        (l.filter (fun m => !m.isSystemMessage)) ∧
      List.Perm ((cleanupOldSystemMessages l).filter (fun m => m.isSystemMessage))
        ((l.filter (fun m => m.isSystemMessage)).drop
          ((l.filter (fun m => m.isSystemMessage)).length - 10))) ∧
    (∀ l : List Message, ReachableMsgs l → systemCount l ≤ 15) := by
  refine ⟨fun l => ⟨systemCount_cleanup_eq l, cleanup_filter_regular l,
    cleanup_filter_system l⟩, reachable_systemCount_le⟩

/-- Witness for `c9_system_message_bound`: the reachable state holding one
freshly added system message respects the bound. -/
theorem c9_system_message_bound_witness :
    systemCount (autoCleanup (addReceivedMessage 1 "e" "boot" true none none [])) ≤ 15 :=
  c9_system_message_bound.2 _ (ReachableMsgs.add 1 "e" "boot" true none none ReachableMsgs.init)
